import Mathlib

/-!
Verification model of the policy agent in src/policy_agent.py.

The agent is a watch/resync/dispatch engine: per-resource-type reflector
threads list-then-stream updates from a remote API into a bounded queue,
and a single dispatcher consumes the queue, resolves handlers and keeps a
local cache.  This file gives a shallow embedding of the data and control
flow of the functions of class PolicyAgent and proves the frozen claims
about them.

Modelling conventions:
  - Parsed JSON documents are values of type PyVal (strings, dicts, lists).
    The envelope schema of the remote API gives the fields type, kind and
    resourceVersion string values, so the model extracts them with asStr,
    flagging other shapes with a typeError.
  - Python exceptions are values of type PyError; a fallible computation
    returns Except PyError.
  - The bounded queue is a list with a capacity; Queue.put with its
    timeout is modelled by an enqueue that fails with queueFull when the
    queue is at capacity (the behaviour when no consumer drains the queue
    within the timeout).
  - Network input is passed in as data: a one-shot response for the list
    call, a list of stream responses for the successive watch calls; an
    Except.error at those positions models the requests call itself
    raising (connection or HTTP error).  The infinite loops are observed
    over such a finite environment: exhausting it ends the observation.
-/

namespace PolicyAgent

/-- A parsed JSON value as manipulated by the Python code: strings,
dictionaries and lists.  Scalar fields relevant to the agent
(type, kind, name, resourceVersion) are strings in the API schema. -/
inductive PyVal where
  | str : String → PyVal
  | dict : List (String × PyVal) → PyVal
  | list : List PyVal → PyVal

/-- The Python exception kinds the agent code can raise or catch:
KeyError from dict subscripts, TypeError from subscripting a non-dict,
ValueError from json.loads on a malformed line, the two requests
transport errors, KubernetesApiError and Queue.Full. -/
inductive PyError where
  | keyError
  | typeError
  | valueError
  | connectionError
  | httpError
  | kubernetesApiError
  | queueFull
deriving DecidableEq, Repr

/-- Modelled from the spec: constants.py is not under src/; the event
kinds come from the envelope schema of section 6 of the spec. -/
def TYPE_ADDED : String := "ADDED"

/-- Modelled from the spec: constants.py is not under src/. -/
def TYPE_MODIFIED : String := "MODIFIED"

/-- Modelled from the spec: constants.py is not under src/. -/
def TYPE_DELETED : String := "DELETED"

/-- Modelled from the spec: constants.py is not under src/. -/
def TYPE_ERROR : String := "ERROR"

/-- Modelled from the spec: constants.py is not under src/; the resource
types come from section 3 of the spec. -/
def RESOURCE_TYPE_NETWORK_POLICY : String := "NetworkPolicy"

/-- Modelled from the spec: constants.py is not under src/. -/
def RESOURCE_TYPE_NAMESPACE : String := "Namespace"

/-- Modelled from the spec: constants.py is not under src/. -/
def RESOURCE_TYPE_POD : String := "Pod"

/-- First-match lookup in an association list; the dicts built by the
agent (handler registry, cache) are written through dictAssign, which
keeps keys unique, so this agrees with Python dict lookup. -/
def lookupStr {α : Type} : List (String × α) → String → Option α
  | [], _ => none
  | (k, v) :: rest, key => if k = key then some v else lookupStr rest key

/-- Python dict assignment d[k] = v: overwrite the binding if the key is
present, otherwise append it. -/
def dictAssign {α : Type} : List (String × α) → String → α → List (String × α)
  | [], k, v => [(k, v)]
  | (k0, v0) :: rest, k, v =>
      if k0 = k then (k, v) :: rest else (k0, v0) :: dictAssign rest k v

/-- Python subscript d[k]: KeyError when a dict lacks the key, TypeError
when the value subscripted with a string key is not a dict. -/
def getItem : PyVal → String → Except PyError PyVal
  | .dict kvs, k =>
      match lookupStr kvs k with
      | some v => .ok v
      | none => .error .keyError
  | _, _ => .error .typeError

/-- Python d.get(k): none when the key is absent.  Call sites in the
model only reach this with dict values. -/
def pyGet : PyVal → String → Option PyVal
  | .dict kvs, k => lookupStr kvs k
  | _, _ => none

/-- Extract a string-valued field via d.get(k); none when the key is
absent or the value is not a string (the API schema makes
resourceVersion a string). -/
def pyGetStr (v : PyVal) (k : String) : Option String :=
  match pyGet v k with
  | some (.str s) => some s
  | _ => none

/-- Require a string scalar, as the envelope schema specifies for the
type, kind and resourceVersion fields. -/
def asStr : PyVal → Except PyError String
  | .str s => .ok s
  | _ => .error .typeError

/-- Python truthiness of an optional string: None and the empty string
are falsy. -/
def pyTruthyStrOpt : Option String → Bool
  | none => false
  | some s => s ≠ ""

/-- An update tuple as placed on the event queue:
(event_type, resource_type, resource). -/
abbrev Update := String × String × PyVal

/-- The local cache: a dict from workload identifier to label set. -/
abbrev Cache := List (String × PyVal)

/-- The (namespace, name) identity derived by the dispatcher; namespace
is optional. -/
abbrev ResourceKey := Option PyVal × PyVal

/-- A reconciliation handler: called with the derived key, the resource
object and the cache; may raise, and returns the updated cache. -/
abbrev Handler := ResourceKey → PyVal → Cache → Except PyError Cache

/-- The handler registry: a dict keyed by (resource_type, event_type). -/
abbrev HandlerTable := List ((String × String) × Handler)

/-- Queue.put(update, block=True, timeout=QUEUE_PUT_TIMEOUT) on the
bounded event queue: succeeds while below capacity, raises Queue.Full
once the timeout elapses with the queue still at capacity. -/
def enqueue (capacity : Nat) (q : List Update) (u : Update) :
    Except PyError (List Update) :=
  if q.length < capacity then .ok (q ++ [u]) else .error .queueFull

/-- Enqueue a list of updates in order, as the resync loop does. -/
def enqueueAll (capacity : Nat) (q : List Update) :
    List Update → Except PyError (List Update)
  | [] => .ok q
  | u :: rest => do
    let q2 ← enqueue capacity q u
    enqueueAll capacity q2 rest

/-- First-match lookup keyed by a (resource_type, event_type) pair,
modelling the handler dict. -/
def lookupKey {α : Type} :
    List ((String × String) × α) → (String × String) → Option α
  | [], _ => none
  | (k, v) :: rest, key => if k = key then some v else lookupKey rest key

/-- The normalization performed by get_handler: MODIFIED is treated as
ADDED before the lookup. -/
def normalizeEventType (event_type : String) : String :=
  if event_type = TYPE_MODIFIED then TYPE_ADDED else event_type

/-- PolicyAgent.get_handler: normalize the event type, then look the pair
up in the handler dict; a missing key raises KeyError. -/
def getHandler {α : Type} (handlers : List ((String × String) × α))
    (resource_type event_type : String) : Except PyError α :=
  match lookupKey handlers (resource_type, normalizeEventType event_type) with
  | some h => .ok h
  | none => .error .keyError

/-- PolicyAgent.add_handler: store the handler under the pair key. -/
def addHandler {α : Type} (handlers : List ((String × String) × α))
    (resource_type event_type : String) (h : α) :
    List ((String × String) × α) :=
  match handlers with
  | [] => [((resource_type, event_type), h)]
  | (k, v) :: rest =>
      if k = (resource_type, event_type) then
        ((resource_type, event_type), h) :: rest
      else
        (k, v) :: addHandler rest resource_type event_type h

/-- TLS verification setting handed to requests: a CA bundle path, or
verification disabled. -/
inductive TlsVerify where
  | caBundle (path : String)
  | disabled

/-- The request built by PolicyAgent._api_get: url, headers and TLS
verification. -/
structure ApiRequest where
  url : String
  headers : List (String × String)
  verify : TlsVerify

/-- The configuration read in PolicyAgent.__init__: the auth token (None
when neither the environment variable nor the token file provides one)
and whether the CA bundle file exists at CA_CERT_PATH. -/
structure AgentConfig where
  auth_token : Option String
  ca_crt_exists : Bool
  ca_cert_path : String

/-- The url built by _api_get: the resource version, when truthy, is
appended to the path as a resourceVersion query parameter. -/
def apiGetUrl (path : String) (resource_version : Option String) : String :=
  if pyTruthyStrOpt resource_version then
    path ++ "?resourceVersion=" ++ resource_version.getD ""
  else
    path

/-- PolicyAgent._api_get, request-construction part: build the url, attach
the bearer header when the auth token is truthy, verify against the CA
bundle when it exists and disable verification otherwise. -/
def apiGetRequest (cfg : AgentConfig) (path : String)
    (resource_version : Option String) : ApiRequest :=
  { url := apiGetUrl path resource_version
    headers :=
      if pyTruthyStrOpt cfg.auth_token then
        [("Authorization", "Bearer " ++ cfg.auth_token.getD "")]
      else
        []
    verify :=
      if cfg.ca_crt_exists then .caBundle cfg.ca_cert_path else .disabled }

/-- A buffered response to the one-shot list call: status code and parsed
JSON body (resp.json()). -/
structure HttpResponse where
  status_code : Nat
  body : PyVal

/-- One line yielded by response.iter_lines() on a watch stream: a blank
keep-alive line, a line on which json.loads raises ValueError, a line
parsing to a JSON value, or a transport failure while reading the
stream (requests raises a connection error). -/
inductive Line where
  | blank
  | invalid
  | json (v : PyVal)
  | disconnect

/-- A streaming response to one watch call: status code and the lines of
its body. -/
structure StreamResponse where
  status_code : Nat
  lines : List Line

/-- The state threaded through _watch_resource: the event queue, the
current resource_version cursor, and (instrumentation of the model) the
urls of the streaming requests issued so far. -/
structure WatchState where
  queue : List Update
  cursor : Option String
  requestPaths : List String

/-- The body of the per-line loop of PolicyAgent._watch_resource: skip
blank keep-alive lines, parse the line (ValueError on a malformed one),
raise KubernetesApiError on an ERROR envelope, otherwise enqueue
(type, object kind, object) and then advance the cursor to
object.metadata.resourceVersion. -/
def processLine (resource_type : String) (capacity : Nat)
    (st : WatchState) (line : Line) : Except PyError WatchState :=
  match line with
  | .blank => .ok st
  | .invalid => .error .valueError
  | .disconnect => .error .connectionError
  | .json parsed => do
    let ty ← asStr (← getItem parsed "type")
    if ty = TYPE_ERROR then
      .error .kubernetesApiError
    else do
      let obj ← getItem parsed "object"
      let kind ← asStr (← getItem obj "kind")
      let queue ← enqueue capacity st.queue (ty, kind, obj)
      let md ← getItem obj "metadata"
      let newVer ← asStr (← getItem md "resourceVersion")
      .ok { st with queue := queue, cursor := some newVer }

/-- One iteration of the while-True loop of PolicyAgent._watch_resource:
issue the streaming request at the current cursor (an error response
models the requests call raising), raise KubernetesApiError on a
non-200 status, then consume the stream line by line. -/
def watchOnce (resource_type path : String) (capacity : Nat)
    (resp : Except PyError StreamResponse) (st : WatchState) :
    Except PyError WatchState := do
  let st := { st with requestPaths := st.requestPaths ++ [apiGetUrl path st.cursor] }
  let r ← resp
  if r.status_code ≠ 200 then
    .error .kubernetesApiError
  else
    r.lines.foldlM (processLine resource_type capacity) st

/-- PolicyAgent._watch_resource observed over a finite environment: the
while-True loop consumes one streaming response per iteration; the
observation ends when the supplied responses are exhausted (in the
program the loop would block issuing the next request). -/
def watchResource (resource_type path : String) (capacity : Nat) :
    List (Except PyError StreamResponse) → WatchState →
    Except PyError WatchState
  | [], st => .ok st
  | r :: rs, st => do
    let st2 ← watchOnce resource_type path capacity r st
    watchResource resource_type path capacity rs st2

/-- PolicyAgent._sync_resources: raise KubernetesApiError on a non-200
status; otherwise read the items list, read the resourceVersion from the
metadata of the response (empty dict default), enqueue one
(ADDED, resource_type, resource) update per item in list order, and
return the queue and the cursor. -/
def syncResources (resource_type : String) (capacity : Nat)
    (resp : HttpResponse) (queue : List Update) :
    Except PyError (List Update × Option String) := do
  if resp.status_code ≠ 200 then
    .error .kubernetesApiError
  else do
    let items ← getItem resp.body "items"
    let itemList ←
      match items with
      | .list l => Except.ok l
      | _ => Except.error .typeError
    let metadata := (pyGet resp.body "metadata").getD (.dict [])
    let resource_version := pyGetStr metadata "resourceVersion"
    let queue ← enqueueAll capacity queue
      (itemList.map (fun r => (TYPE_ADDED, resource_type, r)))
    .ok (queue, resource_version)

/-- The try-block body of one iteration of PolicyAgent._manage_resource:
sync the resource type (an error in the sync response models the
requests call raising), then watch from the returned cursor. -/
def manageResourceBody (resource_type watchPath : String) (capacity : Nat)
    (syncResp : Except PyError HttpResponse)
    (watchResps : List (Except PyError StreamResponse))
    (queue : List Update) : Except PyError WatchState := do
  let resp ← syncResp
  let (queue2, resource_version) ← syncResources resource_type capacity resp queue
  watchResource resource_type watchPath capacity watchResps
    ⟨queue2, resource_version, []⟩

/-- The exception kinds the except clauses of PolicyAgent._manage_resource
catch: requests.ConnectionError, requests.HTTPError, KubernetesApiError
and Queue.Full.  Any other exception propagates out of the loop. -/
def manageResourceCatches : PyError → Bool
  | .connectionError => true
  | .httpError => true
  | .kubernetesApiError => true
  | .queueFull => true
  | _ => false

/-- The outcome of one iteration of the while-True loop of
_manage_resource: either the failure (or normal return) is absorbed and
the loop sleeps one second and re-enters the resync, or an uncaught
exception terminates the worker thread. -/
inductive IterationOutcome where
  | recovered
  | crashed (e : PyError)
deriving DecidableEq, Repr

/-- One iteration of PolicyAgent._manage_resource: run sync-then-watch;
a caught exception is logged and followed by the one-second cooldown
before re-entering the resync (recovered); an exception outside the four
except clauses escapes and the thread terminates (crashed). -/
def manageResourceIteration (resource_type watchPath : String)
    (capacity : Nat) (syncResp : Except PyError HttpResponse)
    (watchResps : List (Except PyError StreamResponse))
    (queue : List Update) : IterationOutcome :=
  match manageResourceBody resource_type watchPath capacity syncResp
      watchResps queue with
  | .ok _ => .recovered
  | .error e => if manageResourceCatches e then .recovered else .crashed e

/-- The log lines of the dispatcher that record which path an item took:
the no-handler warning, the invalid-resource message logged when a
handler raises KeyError, the handled-event debug line, and the
invalid-update message of read_updates. -/
inductive LogEvent where
  | noHandlerWarning (event_type resource_type : String)
  | invalidResource (resource_type : String) (resource : PyVal)
  | handledEvent (event_type resource_type : String)
  | invalidUpdate (update : Update)

/-- PolicyAgent._process_update: derive the (namespace, name) key from the
resource metadata (a KeyError from a missing field propagates to the
caller), look the handler up (a KeyError from get_handler is caught and
logged as a warning), and invoke the handler, catching only KeyError
from it; any other exception the handler raises propagates.  Returns
the updated cache and the log lines emitted. -/
def processUpdate (handlers : HandlerTable)
    (event_type resource_type : String) (resource : PyVal) (cache : Cache) :
    Except PyError (Cache × List LogEvent) := do
  let metadata ← getItem resource "metadata"
  let name ← getItem metadata "name"
  let ns := pyGet metadata "namespace"
  match getHandler handlers resource_type event_type with
  | .error _ => .ok (cache, [.noHandlerWarning event_type resource_type])
  | .ok handler =>
    match handler (ns, name) resource cache with
    | .ok cache2 => .ok (cache2, [.handledEvent event_type resource_type])
    | .error .keyError => .ok (cache, [.invalidResource resource_type resource])
    | .error e => .error e

/-- The outcome of one pass of the while-True loop of
PolicyAgent.read_updates on a dequeued update: either the loop continues
with the possibly-updated cache, or an exception not caught by the
except-KeyError clause terminates the dispatcher. -/
inductive StepOutcome where
  | continued (cache : Cache) (logs : List LogEvent)
  | crashed (e : PyError)

/-- One pass of PolicyAgent.read_updates on a dequeued update: run
_process_update; a KeyError escaping it (a malformed resource) is caught
and logged as an invalid update and the loop continues; any other
exception escapes the loop. -/
def readUpdatesStep (handlers : HandlerTable) (cache : Cache) (u : Update) :
    StepOutcome :=
  match processUpdate handlers u.1 u.2.1 u.2.2 cache with
  | .ok (cache2, logs) => .continued cache2 logs
  | .error .keyError => .continued cache [.invalidUpdate u]
  | .error e => .crashed e

/-- The result of running the dispatcher over a finite queue content:
either every item was consumed (the program would then block on the next
dequeue), or an uncaught exception terminated the loop, leaving the
remaining items unprocessed. -/
inductive DispatchResult where
  | drained (cache : Cache) (logs : List LogEvent)
  | crashed (e : PyError) (logs : List LogEvent)

/-- PolicyAgent.read_updates observed over a finite queue content:
process items in FIFO order until the queue is exhausted or an uncaught
exception terminates the loop. -/
def readUpdates (handlers : HandlerTable) :
    List Update → Cache → List LogEvent → DispatchResult
  | [], cache, logs => .drained cache logs
  | u :: rest, cache, logs =>
    match readUpdatesStep handlers cache u with
    | .continued cache2 l => readUpdates handlers rest cache2 (logs ++ l)
    | .crashed e => .crashed e logs

/-- A workload endpoint record as returned by the datastore client:
workload identifier and label set. -/
structure Endpoint where
  workload_id : String
  labels : PyVal

/-- PolicyAgent.load_cache: list the endpoint records of the policy store
and record the label set of each one keyed by its workload identifier. -/
def loadCache (cache : Cache) (endpoints : List Endpoint) : Cache :=
  endpoints.foldl (fun c ep => dictAssign c ep.workload_id ep.labels) cache

/-- The resource types started by PolicyAgent.start_workers, in order. -/
def workerResources : List String :=
  [RESOURCE_TYPE_NETWORK_POLICY, RESOURCE_TYPE_NAMESPACE, RESOURCE_TYPE_POD]

/-- The externally visible steps PolicyAgent.run performs, in order:
ensure the policy tier exists, load the cache, start one worker thread
per resource type, then enter the dispatcher loop. -/
inductive RunStep where
  | ensureTier
  | cacheLoaded (cache : Cache)
  | workerStarted (resource_type : String)
  | dispatcherStarted

/-- PolicyAgent.run as the ordered trace of its steps: set the tier
metadata, load the cache from the given endpoint listing, start the
worker threads, then enter read_updates. -/
def runTrace (endpoints : List Endpoint) : List RunStep :=
  [RunStep.ensureTier, RunStep.cacheLoaded (loadCache [] endpoints)]
    ++ workerResources.map RunStep.workerStarted
    ++ [RunStep.dispatcherStarted]

/-- Modelled from the spec: the reconciliation handlers live in the
handlers package, which is not under src/; they are external
collaborators whose behaviour the core never inspects, so each is
modelled as an arbitrary fixed reconciliation function. -/
def add_update_network_policy : Handler := fun _ _ c => .ok c

/-- Modelled from the spec: external handler, see
add_update_network_policy. -/
def delete_network_policy : Handler := fun _ _ c => .ok c

/-- Modelled from the spec: external handler, see
add_update_network_policy. -/
def add_update_namespace : Handler := fun _ _ c => .ok c

/-- Modelled from the spec: external handler, see
add_update_network_policy. -/
def delete_namespace : Handler := fun _ _ c => .ok c

/-- Modelled from the spec: external handler, see
add_update_network_policy. -/
def add_update_pod : Handler := fun _ _ c => .ok c

/-- Modelled from the spec: external handler, see
add_update_network_policy. -/
def delete_pod : Handler := fun _ _ c => .ok c

/-- The handler registry built in PolicyAgent.__init__: the six
registrations, in order. -/
def defaultHandlers : HandlerTable :=
  addHandler (addHandler (addHandler (addHandler (addHandler (addHandler []
    RESOURCE_TYPE_NETWORK_POLICY TYPE_ADDED add_update_network_policy)
    RESOURCE_TYPE_NETWORK_POLICY TYPE_DELETED delete_network_policy)
    RESOURCE_TYPE_NAMESPACE TYPE_ADDED add_update_namespace)
    RESOURCE_TYPE_NAMESPACE TYPE_DELETED delete_namespace)
    RESOURCE_TYPE_POD TYPE_ADDED add_update_pod)
    RESOURCE_TYPE_POD TYPE_DELETED delete_pod

theorem except_bind_ok {α β : Type} (a : α) (f : α → Except PyError β) :
    (Except.ok a >>= f) = f a := rfl

theorem except_bind_error {α β : Type} (e : PyError) (f : α → Except PyError β) :
    ((Except.error e : Except PyError α) >>= f) = .error e := rfl

/-- Enqueueing a batch succeeds and appends in order when the queue has
room for the whole batch. -/
theorem enqueueAll_ok (capacity : Nat) (us : List Update) :
    ∀ q : List Update, q.length + us.length ≤ capacity →
      enqueueAll capacity q us = .ok (q ++ us) := by
  induction us with
  | nil => intro q h; simp [enqueueAll]
  | cons u rest ih =>
      intro q h
      have hq : q.length < capacity := by
        simp only [List.length_cons] at h; omega
      have h1 : enqueue capacity q u = .ok (q ++ [u]) := by
        simp [enqueue, hq]
      have h2 : (q ++ [u]).length + rest.length ≤ capacity := by
        simp only [List.length_append, List.length_cons, List.length_nil] at h ⊢
        omega
      simp [enqueueAll, h1, except_bind_ok, ih (q ++ [u]) h2]

/-- C5 (confirmed): a resync raises KubernetesApiError on a non-200 list
response; on a 200 response it enqueues exactly one Added-update per
object of the items list, in list order, and returns as cursor the
resourceVersion of the response metadata. -/
theorem c5_sync_resources (resource_type : String) (capacity : Nat)
    (resp : HttpResponse) (queue : List Update) :
    (resp.status_code ≠ 200 →
      syncResources resource_type capacity resp queue =
        .error .kubernetesApiError) ∧
    (∀ (items : List PyVal) (md : PyVal) (rv : String),
      resp.status_code = 200 →
      getItem resp.body "items" = .ok (.list items) →
      queue.length + items.length ≤ capacity →
      pyGet resp.body "metadata" = some md →
      pyGetStr md "resourceVersion" = some rv →
      syncResources resource_type capacity resp queue =
        .ok (queue ++ items.map (fun r => (TYPE_ADDED, resource_type, r)),
             some rv)) := by
  constructor
  · intro h
    simp [syncResources, h]
  · intro items md rv h200 hitems hcap hmd hrv
    have hlen : queue.length +
        (items.map (fun r => (TYPE_ADDED, resource_type, r))).length ≤
          capacity := by
      simpa using hcap
    simp [syncResources, h200, hitems, except_bind_ok, hmd, hrv,
          enqueueAll_ok capacity _ queue hlen]

/-- C5 witness: a concrete 200 response with one item and a metadata
resourceVersion, and a concrete 500 response. -/
theorem c5_sync_resources_witness :
    syncResources "Pod" 4
      ⟨200, .dict [("items", .list [.str "a"]),
        ("metadata", .dict [("resourceVersion", .str "5")])]⟩ [] =
      .ok ([("ADDED", "Pod", .str "a")], some "5") ∧
    syncResources "Pod" 4 ⟨500, .dict []⟩ [] = .error .kubernetesApiError := by
  constructor
  · have h := (c5_sync_resources "Pod" 4
      ⟨200, .dict [("items", .list [.str "a"]),
        ("metadata", .dict [("resourceVersion", .str "5")])]⟩ []).2
      [.str "a"] (.dict [("resourceVersion", .str "5")]) "5"
      rfl rfl (by decide) rfl rfl
    simpa [TYPE_ADDED] using h
  · exact (c5_sync_resources "Pod" 4 ⟨500, .dict []⟩ []).1 (by decide)

/-- C6 (confirmed): resolving a handler for event kind Modified returns
exactly the handler registered for (resource type, Added), and a pair
with no registered handler after the Modified-to-Added normalization
fails with KeyError. -/
theorem c6_get_handler {α : Type} (handlers : List ((String × String) × α))
    (resource_type : String) :
    (∀ h, lookupKey handlers (resource_type, TYPE_ADDED) = some h →
      getHandler handlers resource_type TYPE_MODIFIED = .ok h) ∧
    (∀ event_type,
      lookupKey handlers (resource_type, normalizeEventType event_type) = none →
      getHandler handlers resource_type event_type = .error .keyError) := by
  constructor
  · intro h hl
    simp [getHandler, normalizeEventType, hl]
  · intro event_type hl
    simp [getHandler, hl]

/-- C6 witness: on a registry holding only (Pod, ADDED), resolving
(Pod, MODIFIED) returns that handler and resolving (Pod, DELETED) fails
with KeyError. -/
theorem c6_get_handler_witness :
    getHandler [((RESOURCE_TYPE_POD, TYPE_ADDED), (7 : Nat))]
      RESOURCE_TYPE_POD TYPE_MODIFIED = .ok 7 ∧
    getHandler [((RESOURCE_TYPE_POD, TYPE_ADDED), (7 : Nat))]
      RESOURCE_TYPE_POD TYPE_DELETED = .error .keyError := by
  constructor
  · exact (c6_get_handler [((RESOURCE_TYPE_POD, TYPE_ADDED), (7 : Nat))]
      RESOURCE_TYPE_POD).1 7 (by decide)
  · exact (c6_get_handler [((RESOURCE_TYPE_POD, TYPE_ADDED), (7 : Nat))]
      RESOURCE_TYPE_POD).2 TYPE_DELETED (by decide)

/-- C9 (confirmed): the request built by _api_get carries the Bearer
authorization header exactly when the configured auth token is truthy,
verifies TLS against the CA bundle exactly when the bundle file exists
(disabling verification otherwise), and appends a supplied cursor to the
path as a resourceVersion query parameter, leaving the path untouched
when no cursor is supplied. -/
theorem c9_api_get_request (cfg : AgentConfig) (path : String)
    (resource_version : Option String) :
    ((∃ v, ("Authorization", v) ∈ (apiGetRequest cfg path resource_version).headers) ↔
      pyTruthyStrOpt cfg.auth_token = true) ∧
    (cfg.ca_crt_exists = true →
      (apiGetRequest cfg path resource_version).verify =
        .caBundle cfg.ca_cert_path) ∧
    (cfg.ca_crt_exists = false →
      (apiGetRequest cfg path resource_version).verify = .disabled) ∧
    (∀ v, resource_version = some v → v ≠ "" →
      (apiGetRequest cfg path resource_version).url =
        path ++ "?resourceVersion=" ++ v) ∧
    (resource_version = none →
      (apiGetRequest cfg path resource_version).url = path) := by
  refine ⟨?_, ?_, ?_, ?_, ?_⟩
  · cases htok : pyTruthyStrOpt cfg.auth_token with
    | false => simp [apiGetRequest, htok]
    | true => simp [apiGetRequest, htok]
  · intro h; simp [apiGetRequest, h]
  · intro h; simp [apiGetRequest, h]
  · intro v hv hne
    simp [apiGetRequest, apiGetUrl, hv, pyTruthyStrOpt, hne]
  · intro h
    simp [apiGetRequest, apiGetUrl, h, pyTruthyStrOpt]

/-- C9 witness: a concrete configuration with a token and a CA bundle,
queried with a cursor, and the cursorless case on a tokenless
configuration without a bundle. -/
theorem c9_api_get_request_witness :
    ((∃ v, ("Authorization", v) ∈
        (apiGetRequest ⟨some "tok", true, "/ca.crt"⟩ "/api/v1/pods"
          (some "5")).headers) ↔
      pyTruthyStrOpt (some "tok") = true) ∧
    (apiGetRequest ⟨some "tok", true, "/ca.crt"⟩ "/api/v1/pods"
        (some "5")).verify = .caBundle "/ca.crt" ∧
    (apiGetRequest ⟨some "tok", true, "/ca.crt"⟩ "/api/v1/pods"
        (some "5")).url = "/api/v1/pods" ++ "?resourceVersion=" ++ "5" ∧
    (apiGetRequest ⟨none, false, "/ca.crt"⟩ "/api/v1/pods" none).verify =
      .disabled ∧
    (apiGetRequest ⟨none, false, "/ca.crt"⟩ "/api/v1/pods" none).url =
      "/api/v1/pods" := by
  refine ⟨(c9_api_get_request ⟨some "tok", true, "/ca.crt"⟩ "/api/v1/pods"
      (some "5")).1,
    (c9_api_get_request ⟨some "tok", true, "/ca.crt"⟩ "/api/v1/pods"
      (some "5")).2.1 rfl,
    (c9_api_get_request ⟨some "tok", true, "/ca.crt"⟩ "/api/v1/pods"
      (some "5")).2.2.2.1 "5" rfl (by decide),
    (c9_api_get_request ⟨none, false, "/ca.crt"⟩ "/api/v1/pods" none).2.2.1 rfl,
    (c9_api_get_request ⟨none, false, "/ca.crt"⟩ "/api/v1/pods"
      none).2.2.2.2 rfl⟩

/-- C10 (confirmed): when the 200 list response carries no string
resourceVersion under its metadata (or no metadata at all), the resync
still succeeds and returns None as the cursor, and a watch request
issued with cursor None carries no resourceVersion query parameter. -/
theorem c10_missing_cursor (resource_type : String) (capacity : Nat)
    (body : PyVal) (queue : List Update) (items : List PyVal)
    (watchPath : String) :
    getItem body "items" = .ok (.list items) →
    queue.length + items.length ≤ capacity →
    pyGetStr ((pyGet body "metadata").getD (.dict [])) "resourceVersion" =
      none →
    syncResources resource_type capacity ⟨200, body⟩ queue =
      .ok (queue ++ items.map (fun r => (TYPE_ADDED, resource_type, r)),
           none) ∧
    apiGetUrl watchPath none = watchPath := by
  intro hitems hcap hrv
  constructor
  · have hlen : queue.length +
        (items.map (fun r => (TYPE_ADDED, resource_type, r))).length ≤
          capacity := by
      simpa using hcap
    simp [syncResources, hitems, except_bind_ok, hrv,
          enqueueAll_ok capacity _ queue hlen]
  · simp [apiGetUrl, pyTruthyStrOpt]

/-- C10 witness: a concrete list response whose body has no metadata key
at all. -/
theorem c10_missing_cursor_witness :
    syncResources "Pod" 4 ⟨200, .dict [("items", .list [.str "a"])]⟩ [] =
      .ok ([("ADDED", "Pod", .str "a")], none) ∧
    apiGetUrl "/watch/pods" none = "/watch/pods" := by
  have h := c10_missing_cursor "Pod" 4 (.dict [("items", .list [.str "a"])])
    [] [.str "a"] "/watch/pods" rfl (by decide) rfl
  simpa [TYPE_ADDED] using h

/-- C7 (confirmed): a dequeued update whose resource lacks metadata.name
raises KeyError inside _process_update before any handler is reached;
read_updates catches it, logs the invalid update, drops the item without
touching the cache, and goes on with the rest of the queue.  The
statement holds for every handler table, so no registered handler can
have been invoked. -/
theorem c7_malformed_update_skipped (handlers : HandlerTable) (cache : Cache)
    (event_type resource_type : String) (resource md : PyVal)
    (rest : List Update) (logs : List LogEvent) :
    getItem resource "metadata" = .ok md →
    getItem md "name" = .error .keyError →
    readUpdatesStep handlers cache (event_type, resource_type, resource) =
      .continued cache [.invalidUpdate (event_type, resource_type, resource)] ∧
    readUpdates handlers ((event_type, resource_type, resource) :: rest)
        cache logs =
      readUpdates handlers rest cache
        (logs ++ [.invalidUpdate (event_type, resource_type, resource)]) := by
  intro hmd hname
  have hstep : readUpdatesStep handlers cache
      (event_type, resource_type, resource) =
      .continued cache
        [.invalidUpdate (event_type, resource_type, resource)] := by
    simp [readUpdatesStep, processUpdate, hmd, except_bind_ok, hname,
          except_bind_error]
  exact ⟨hstep, by simp [readUpdates, hstep]⟩

/-- C7 witness: a concrete update whose metadata dict has no name key,
dispatched against the default registry. -/
theorem c7_malformed_update_skipped_witness :
    readUpdatesStep defaultHandlers []
      ("ADDED", "Pod", .dict [("metadata", .dict [])]) =
      .continued []
        [.invalidUpdate ("ADDED", "Pod", .dict [("metadata", .dict [])])] ∧
    readUpdates defaultHandlers
        [("ADDED", "Pod", .dict [("metadata", .dict [])])] [] [] =
      readUpdates defaultHandlers [] []
        ([] ++ [.invalidUpdate ("ADDED", "Pod", .dict [("metadata", .dict [])])]) :=
  c7_malformed_update_skipped defaultHandlers [] "ADDED" "Pod"
    (.dict [("metadata", .dict [])]) (.dict []) [] [] rfl rfl

theorem lookupStr_dictAssign_self {α : Type} (c : List (String × α))
    (k : String) (v : α) : lookupStr (dictAssign c k v) k = some v := by
  induction c with
  | nil => simp [dictAssign, lookupStr]
  | cons p rest ih =>
      obtain ⟨k0, v0⟩ := p
      by_cases h : k0 = k
      · simp [dictAssign, h, lookupStr]
      · simp [dictAssign, h, lookupStr, ih]

theorem lookupStr_dictAssign_other {α : Type} (c : List (String × α))
    (k k2 : String) (v : α) (h : k ≠ k2) :
    lookupStr (dictAssign c k v) k2 = lookupStr c k2 := by
  induction c with
  | nil => simp [dictAssign, lookupStr, h]
  | cons p rest ih =>
      obtain ⟨k0, v0⟩ := p
      by_cases hk : k0 = k
      · subst hk
        simp [dictAssign, lookupStr, h]
      · simp [dictAssign, hk, lookupStr, ih]

/-- Loading endpoints whose identifiers all differ from a given key does
not change what the cache holds at that key. -/
theorem lookupStr_loadCache_absent (endpoints : List Endpoint) :
    ∀ (c : Cache) (id : String),
      id ∉ endpoints.map Endpoint.workload_id →
      lookupStr (loadCache c endpoints) id = lookupStr c id := by
  induction endpoints with
  | nil => intro c id _; simp [loadCache]
  | cons ep rest ih =>
      intro c id h
      simp only [List.map_cons, List.mem_cons, not_or] at h
      have hstep : loadCache c (ep :: rest) =
          loadCache (dictAssign c ep.workload_id ep.labels) rest := rfl
      rw [hstep, ih _ id h.2,
          lookupStr_dictAssign_other c ep.workload_id id ep.labels
            (fun he => h.1 he.symm)]

/-- With pairwise distinct workload identifiers, the seeded cache holds
the label set of each listed endpoint at its identifier. -/
theorem lookupStr_loadCache_mem (endpoints : List Endpoint) :
    ∀ c : Cache, (endpoints.map Endpoint.workload_id).Nodup →
      ∀ ep ∈ endpoints,
        lookupStr (loadCache c endpoints) ep.workload_id = some ep.labels := by
  induction endpoints with
  | nil => intro c _ ep h; simp at h
  | cons e rest ih =>
      intro c hnd ep hep
      simp only [List.map_cons, List.nodup_cons] at hnd
      rcases List.mem_cons.mp hep with rfl | hmem
      · have hstep : loadCache c (ep :: rest) =
            loadCache (dictAssign c ep.workload_id ep.labels) rest := rfl
        rw [hstep, lookupStr_loadCache_absent rest _ _ hnd.1,
            lookupStr_dictAssign_self]
      · exact ih _ hnd.2 ep hmem

/-- C8 (confirmed): in the trace of run(), the cache-seeding step carries
the cache built from the policy-store endpoint listing keyed by workload
identifier, happens at position 1, and strictly precedes every
worker-thread start and the start of the dispatcher loop. -/
theorem c8_run_seeds_cache_first (endpoints : List Endpoint) :
    ((runTrace endpoints)[1]? =
      some (.cacheLoaded (loadCache [] endpoints))) ∧
    (∀ (i : Nat) (rt : String),
      (runTrace endpoints)[i]? = some (.workerStarted rt) → 1 < i) ∧
    (∀ i : Nat,
      (runTrace endpoints)[i]? = some .dispatcherStarted → 1 < i) ∧
    ((endpoints.map Endpoint.workload_id).Nodup →
      ∀ ep ∈ endpoints,
        lookupStr (loadCache [] endpoints) ep.workload_id =
          some ep.labels) := by
  refine ⟨by simp [runTrace], ?_, ?_, fun h => lookupStr_loadCache_mem endpoints [] h⟩
  · intro i rt h
    match i with
    | 0 => simp [runTrace, workerResources] at h
    | 1 => simp [runTrace, workerResources] at h
    | n + 2 => omega
  · intro i h
    match i with
    | 0 => simp [runTrace, workerResources] at h
    | 1 => simp [runTrace, workerResources] at h
    | n + 2 => omega

/-- C8 witness: the trace on a concrete one-endpoint listing. -/
theorem c8_run_seeds_cache_first_witness :
    (runTrace [⟨"w1", .dict [("app", .str "db")]⟩])[1]? =
      some (.cacheLoaded (loadCache [] [⟨"w1", .dict [("app", .str "db")]⟩])) ∧
    lookupStr (loadCache [] [⟨"w1", .dict [("app", .str "db")]⟩]) "w1" =
      some (.dict [("app", .str "db")]) := by
  refine ⟨(c8_run_seeds_cache_first [⟨"w1", .dict [("app", .str "db")]⟩]).1, ?_⟩
  exact (c8_run_seeds_cache_first [⟨"w1", .dict [("app", .str "db")]⟩]).2.2.2
    (by simp) ⟨"w1", .dict [("app", .str "db")]⟩ (by simp)

/-- C1 counterexample: a watch stream delivering one malformed line (one
on which json.loads raises ValueError) makes the managing loop iteration
crash the reflector thread: ValueError is outside the four except
clauses of _manage_resource, so the loop does not re-enter Resync. -/
theorem c1_counterexample :
    manageResourceIteration "Pod" "/watch/pods" 10
      (.ok ⟨200, .dict [("items", .list [])]⟩)
      [.ok ⟨200, [.invalid]⟩] [] = .crashed .valueError := by
  rfl

/-- C1 (corrected): a failure of one of the kinds named by the except
clauses of _manage_resource — connection error, HTTP error,
KubernetesApiError or queue-full — is caught and the iteration ends in
the logged cooldown and re-entry into Resync; a ValueError from parsing
a malformed stream payload is not caught and terminates the reflector. -/
theorem c1_manage_loop_restart (resource_type watchPath : String)
    (capacity : Nat) (syncResp : Except PyError HttpResponse)
    (watchResps : List (Except PyError StreamResponse))
    (queue : List Update) :
    (∀ e : PyError,
      manageResourceBody resource_type watchPath capacity syncResp
        watchResps queue = .error e →
      (e = .connectionError ∨ e = .httpError ∨ e = .kubernetesApiError ∨
        e = .queueFull) →
      manageResourceIteration resource_type watchPath capacity syncResp
        watchResps queue = .recovered) ∧
    (manageResourceBody resource_type watchPath capacity syncResp
        watchResps queue = .error .valueError →
      manageResourceIteration resource_type watchPath capacity syncResp
        watchResps queue = .crashed .valueError) := by
  constructor
  · intro e hbody he
    rcases he with rfl | rfl | rfl | rfl <;>
      simp [manageResourceIteration, hbody, manageResourceCatches]
  · intro hbody
    simp [manageResourceIteration, hbody, manageResourceCatches]

/-- C1 witness: a 500 list response raises KubernetesApiError, which is
caught, and the iteration recovers into the next resync; the same
environment as the counterexample is crashed by a ValueError. -/
theorem c1_manage_loop_restart_witness :
    manageResourceIteration "Pod" "/watch/pods" 10 (.ok ⟨500, .dict []⟩) [] [] =
      .recovered ∧
    manageResourceIteration "Pod" "/watch/pods" 10
      (.ok ⟨200, .dict [("items", .list [])]⟩)
      [.ok ⟨200, [.invalid, .blank]⟩] [] = .crashed .valueError := by
  constructor
  · exact (c1_manage_loop_restart "Pod" "/watch/pods" 10
      (.ok ⟨500, .dict []⟩) [] []).1 .kubernetesApiError rfl
      (Or.inr (Or.inr (Or.inl rfl)))
  · exact (c1_manage_loop_restart "Pod" "/watch/pods" 10
      (.ok ⟨200, .dict [("items", .list [])]⟩)
      [.ok ⟨200, [.invalid, .blank]⟩] []).2 rfl

/-- A handler that raises ValueError, standing for any handler failure
that is not a KeyError. -/
def valueErrorHandler : Handler := fun _ _ _ => .error .valueError

/-- A well-formed pod resource used by the C2 counterexample. -/
def c2Resource : PyVal :=
  .dict [("metadata", .dict [("name", .str "a")])]

/-- C2 counterexample: a handler raising ValueError is not caught — the
except clauses of _process_update and read_updates cover only KeyError —
so the dispatcher loop terminates and the remaining queue item is never
processed. -/
theorem c2_counterexample :
    readUpdates [(("Pod", "ADDED"), valueErrorHandler)]
      [("ADDED", "Pod", c2Resource), ("ADDED", "Pod", c2Resource)] [] [] =
      .crashed .valueError [] := by
  rfl

/-- C2 (corrected): a KeyError raised by the invoked handler is caught,
logged with the offending payload, the item dropped and the dispatcher
continues with the rest of the queue; exceptions of other types
propagate out of the dispatcher loop. -/
theorem c2_handler_keyerror_caught (handlers : HandlerTable) (cache : Cache)
    (event_type resource_type : String) (resource md nameVal : PyVal)
    (h : Handler) (rest : List Update) (logs : List LogEvent) :
    getItem resource "metadata" = .ok md →
    getItem md "name" = .ok nameVal →
    getHandler handlers resource_type event_type = .ok h →
    h (pyGet md "namespace", nameVal) resource cache = .error .keyError →
    readUpdatesStep handlers cache (event_type, resource_type, resource) =
      .continued cache [.invalidResource resource_type resource] ∧
    readUpdates handlers ((event_type, resource_type, resource) :: rest)
        cache logs =
      readUpdates handlers rest cache
        (logs ++ [.invalidResource resource_type resource]) := by
  intro hmd hname hget hh
  have hstep : readUpdatesStep handlers cache
      (event_type, resource_type, resource) =
      .continued cache [.invalidResource resource_type resource] := by
    simp [readUpdatesStep, processUpdate, hmd, hname, except_bind_ok,
          hget, hh]
  exact ⟨hstep, by simp [readUpdates, hstep]⟩

/-- C2 witness: a handler raising KeyError on a concrete well-formed
update is caught and the dispatcher continues. -/
theorem c2_handler_keyerror_caught_witness :
    readUpdatesStep [(("Pod", "ADDED"), fun _ _ _ => .error .keyError)] []
      ("ADDED", "Pod", c2Resource) =
      .continued [] [.invalidResource "Pod" c2Resource] ∧
    readUpdates [(("Pod", "ADDED"), fun _ _ _ => .error .keyError)]
        [("ADDED", "Pod", c2Resource)] [] [] =
      readUpdates [(("Pod", "ADDED"), fun _ _ _ => .error .keyError)] [] []
        ([] ++ [.invalidResource "Pod" c2Resource]) :=
  c2_handler_keyerror_caught
    [(("Pod", "ADDED"), fun _ _ _ => .error .keyError)] []
    "ADDED" "Pod" c2Resource (.dict [("name", .str "a")]) (.str "a")
    (fun _ _ _ => .error .keyError) [] [] rfl rfl rfl rfl

/-- The watch envelope used by the C3 counterexample: a reflector
watching Pod receives an object whose kind field is Namespace. -/
def c3Object : PyVal :=
  .dict [("kind", .str "Namespace"),
         ("metadata", .dict [("resourceVersion", .str "7")])]

/-- C3 counterexample: the watch loop enqueues parsed object kind as the
resource-type component, so while watching Pod a payload whose object
kind is Namespace yields an enqueued update whose resource-type
component is Namespace, not the resource type the reflector was started
for. -/
theorem c3_counterexample :
    processLine "Pod" 10 ⟨[], none, []⟩
      (.json (.dict [("type", .str "ADDED"), ("object", c3Object)])) =
      .ok ⟨[("ADDED", "Namespace", c3Object)], some "7", []⟩ ∧
    "Namespace" ≠ "Pod" := by
  exact ⟨rfl, by decide⟩

/-- C3 (corrected): for a non-blank non-Error line, the enqueued update
is (type, object kind, object) — its resource-type component is the kind
field read from the payload, which equals the watched resource type only
when the payload says so — and afterwards the cursor is advanced to
object.metadata.resourceVersion. -/
theorem c3_watch_enqueue (resource_type : String) (capacity : Nat)
    (st : WatchState) (parsed obj md : PyVal) (ty kind rv : String) :
    getItem parsed "type" = .ok (.str ty) →
    ty ≠ TYPE_ERROR →
    getItem parsed "object" = .ok obj →
    getItem obj "kind" = .ok (.str kind) →
    getItem obj "metadata" = .ok md →
    getItem md "resourceVersion" = .ok (.str rv) →
    st.queue.length < capacity →
    processLine resource_type capacity st (.json parsed) =
      .ok { st with queue := st.queue ++ [(ty, kind, obj)],
                    cursor := some rv } := by
  intro hty hne hobj hkind hmd hrv hcap
  have henq : enqueue capacity st.queue (ty, kind, obj) =
      .ok (st.queue ++ [(ty, kind, obj)]) := by
    simp [enqueue, hcap]
  simp [processLine, hty, hobj, hkind, hmd, hrv, except_bind_ok, asStr,
        hne, henq]

/-- C3 witness: the amended statement evaluated on the counterexample
line, with a kind differing from the watched resource type. -/
theorem c3_watch_enqueue_witness :
    processLine "Pod" 10 ⟨[], none, []⟩
      (.json (.dict [("type", .str "ADDED"), ("object", c3Object)])) =
      .ok { queue := [] ++ [("ADDED", "Namespace", c3Object)],
            cursor := some "7", requestPaths := ([] : List String) } :=
  c3_watch_enqueue "Pod" 10 ⟨[], none, []⟩
    (.dict [("type", .str "ADDED"), ("object", c3Object)]) c3Object
    (.dict [("resourceVersion", .str "7")]) "ADDED" "Namespace" "7"
    rfl (by decide) rfl rfl rfl rfl (by decide)

/-- C4 counterexample: two streaming responses that both end cleanly
(connection closed, no error) are consumed inside one invocation of
_watch_resource — its request instrumentation records two streaming
GETs — so a clean stream end does not exit the Watch state. -/
theorem c4_counterexample :
    watchResource "Pod" "/watch/pods" 4
      [.ok ⟨200, []⟩, .ok ⟨200, []⟩] ⟨[], none, []⟩ =
      .ok ⟨[], none, ["/watch/pods", "/watch/pods"]⟩ ∧
    ¬ (["/watch/pods", "/watch/pods"] : List String).length ≤ 1 := by
  exact ⟨rfl, by decide⟩

/-- C4 (corrected): a parse or transport failure (or error envelope or
non-200 status) propagates out of _watch_resource, exiting Watch so the
managing loop re-enters Resync after the cooldown; but when a stream
ends cleanly the loop stays inside Watch and immediately issues the next
streaming request from the state the stream left behind. -/
theorem c4_watch_exit (resource_type path : String) (capacity : Nat)
    (r : Except PyError StreamResponse)
    (rs : List (Except PyError StreamResponse)) (st : WatchState) :
    (∀ e : PyError,
      watchOnce resource_type path capacity r st = .error e →
      watchResource resource_type path capacity (r :: rs) st = .error e) ∧
    (∀ st2 : WatchState,
      watchOnce resource_type path capacity r st = .ok st2 →
      watchResource resource_type path capacity (r :: rs) st =
        watchResource resource_type path capacity rs st2) := by
  constructor
  · intro e h
    simp [watchResource, h, except_bind_error]
  · intro st2 h
    simp [watchResource, h, except_bind_ok]

/-- C4 witness: a non-200 watch response propagates KubernetesApiError
out of the watch, and a cleanly ended stream hands its state to the next
iteration inside Watch. -/
theorem c4_watch_exit_witness :
    watchResource "Pod" "/watch/pods" 4 [.ok ⟨500, []⟩] ⟨[], none, []⟩ =
      .error .kubernetesApiError ∧
    watchResource "Pod" "/watch/pods" 4
        [.ok ⟨200, []⟩, .ok ⟨200, []⟩] ⟨[], none, []⟩ =
      watchResource "Pod" "/watch/pods" 4 [.ok ⟨200, []⟩]
        ⟨[], none, ["/watch/pods"]⟩ := by
  constructor
  · exact (c4_watch_exit "Pod" "/watch/pods" 4 (.ok ⟨500, []⟩) []
      ⟨[], none, []⟩).1 .kubernetesApiError rfl
  · exact (c4_watch_exit "Pod" "/watch/pods" 4 (.ok ⟨200, []⟩)
      [.ok ⟨200, []⟩] ⟨[], none, []⟩).2 ⟨[], none, ["/watch/pods"]⟩ rfl

end PolicyAgent
